import Mathlib

set_option linter.unusedVariables false

/-
  Shallow embedding of src/src/modules/udp.c (pppoat UDP transport module).

  External system calls (sendto, read, recv, select, getaddrinfo, socket,
  bind, write, fcntl) are modelled by injected response sequences: each
  execution of a loop consumes the next injected response of the
  corresponding call.  The macro P_ERR is modelled as the identity on its
  error argument (it only adds logging in the C source).
-/

namespace Pppoat

/-- errno value EAGAIN (Linux). -/
def EAGAIN : Int := 11

/-- errno value EWOULDBLOCK (Linux, equal to EAGAIN). -/
def EWOULDBLOCK : Int := 11

/-- errno value EINTR (Linux). -/
def EINTR : Int := 4

/-- errno value EPIPE (Linux). -/
def EPIPE : Int := 32

/-- errno value ENOMEM (Linux). -/
def ENOMEM : Int := 12

/-- errno value ENOPROTOOPT (Linux). -/
def ENOPROTOOPT : Int := 92

/-- Constant UDP_PORT_MASTER from udp.c line 38. -/
def UDP_PORT_MASTER : Nat := 0xc001

/-- Constant UDP_PORT_SLAVE from udp.c line 39. -/
def UDP_PORT_SLAVE : Nat := 0xc001

/-- Constant UDP_HOST_MASTER from udp.c line 40. -/
def UDP_HOST_MASTER : String := "192.168.4.1"

/-- Constant UDP_HOST_SLAVE from udp.c line 41. -/
def UDP_HOST_SLAVE : String := "192.168.4.10"

/-- Node role, mirroring pppoat_node_type_t values used in udp.c. -/
inductive NodeType where
  | master
  | slave
deriving DecidableEq, Repr

/-- Result of one system call returning a byte count or minus one with an
errno: `ok n` models a return of `n ≥ 0`, `err e` models a return of `-1`
with `errno = e`. -/
inductive SysRes where
  | ok (n : Nat)
  | err (e : Int)
deriving DecidableEq, Repr

/-- Translation of udp_error_is_recoverable (udp.c lines 157-162).  The C
function receives the negated errno. -/
def udp_error_is_recoverable (error : Int) : Bool :=
  error = -EAGAIN || error = -EINTR || error = -EWOULDBLOCK

/-- Translation of the do-while loop of udp_buf_send (udp.c lines 164-192).
`len` is the remaining byte count (ssize_t), `resps` the injected results of
the successive sendto calls, `sels` the injected results of the successive
pppoat_util_select calls made on would-block.  The result is `none` when
the injected responses are exhausted before the loop exits, otherwise
`some (rc, sent)` where `rc` is the returned value and `sent` lists the
byte counts of the successful sendto calls in order. -/
def udp_buf_send : Int → List SysRes → List Int → Option (Int × List Nat)
  | _len, [], _sels => none
  | len, SysRes.ok n :: resps, sels =>
      let lenA : Int := if 0 < (n : Int) then len - (n : Int) else len
      if 0 < lenA then
        (udp_buf_send lenA resps sels).map (fun p => (p.1, n :: p.2))
      else
        some (0, [n])
  | len, SysRes.err e :: resps, sels =>
      if e = EINTR then
        (if 0 < len then udp_buf_send len resps sels else some (0, []))
      else if udp_error_is_recoverable (-e) then
        match sels with
        | [] => none
        | s :: sels2 =>
          if s = 0 then
            (if 0 < len then udp_buf_send len resps sels2 else some (0, []))
          else
            some (s, [])
      else
        if e = 0 then
          (if 0 < len then udp_buf_send len resps sels else some (0, []))
        else
          some (-e, [])

/-- Well-formedness of an injected sendto response sequence with respect to
the evolving remaining length: a successful sendto never reports more bytes
than were passed to it (POSIX contract of sendto). -/
def sends_bounded : Int → List SysRes → Bool
  | _len, [] => true
  | len, SysRes.ok n :: resps =>
      decide ((n : Int) ≤ len) && sends_bounded (len - (n : Int)) resps
  | len, SysRes.err _ :: resps => sends_bounded len resps

/-- Injected environment of one iteration of the while loop of
module_udp_run (udp.c lines 207-232): the result of pppoat_util_select, the
state of the two readiness flags in rfds after that call, the result of the
read call on rd, the injected sendto and select responses consumed by a
udp_buf_send call, the result of the recv call on the socket, and the
result of the pppoat_util_write call. -/
structure IterEnv where
  selectRc : Int
  rdReady : Bool
  sockReady : Bool
  readRes : SysRes
  sendResps : List SysRes
  sendSels : List Int
  recvRes : SysRes
  writeRc : Int

/-- Observable actions of one iteration of the loop of module_udp_run:
whether the rd branch was entered, the byte counts of the successful sendto
calls, whether the recv call was performed, and the byte count handed to
pppoat_util_write if any. -/
structure IterActs where
  didRead : Bool
  sent : List Nat
  didRecv : Bool
  wrote : Option Nat
deriving DecidableEq, Repr

/-- Normalisation of the select return value in module_udp_run line 213:
rc = rc greater than 0 question 0 colon rc. -/
def select_norm (rc : Int) : Int :=
  if 0 < rc then 0 else rc

/-- Translation of the rd branch of module_udp_run (udp.c lines 215-223).
`rc0` is the value of rc before the branch.  Returns the value of rc after
the branch together with the successful sendto byte counts, or `none` when
a udp_buf_send call ran out of injected responses. -/
def run_rd_branch (rc0 : Int) (env : IterEnv) : Option (Int × List Nat) :=
  if env.rdReady then
    match env.readRes with
    | SysRes.ok 0 => some (-EPIPE, [])
    | SysRes.ok (n + 1) =>
        udp_buf_send ((n + 1 : Nat) : Int) env.sendResps env.sendSels
    | SysRes.err e =>
        if udp_error_is_recoverable (-e) then some (rc0, [])
        else some (-e, [])
  else
    some (rc0, [])

/-- Translation of one whole iteration of the while loop of module_udp_run
(udp.c lines 207-232): select with normalisation, the rd branch, then the
socket branch guarded by rc equal to 0.  Returns the value of rc at the end
of the iteration and the observable actions. -/
def run_step (env : IterEnv) : Option (Int × IterActs) :=
  match run_rd_branch (select_norm env.selectRc) env with
  | none => none
  | some (rc1, sent) =>
    if rc1 = 0 ∧ env.sockReady = true then
      match env.recvRes with
      | SysRes.ok 0 =>
          some (0, ⟨env.rdReady, sent, true, none⟩)
      | SysRes.ok (n + 1) =>
          some (env.writeRc, ⟨env.rdReady, sent, true, some (n + 1)⟩)
      | SysRes.err e =>
          some ((if udp_error_is_recoverable (-e) then 0 else -e),
                ⟨env.rdReady, sent, true, none⟩)
    else
      some (rc1, ⟨env.rdReady, sent, false, none⟩)

/-- Translation of the while loop of module_udp_run: iterates run_step as
long as rc stays 0.  Returns `none` when the injected iteration
environments are exhausted while the loop is still running, otherwise the
returned rc together with the trace of iteration actions. -/
def run_loop : List IterEnv → Option (Int × List IterActs)
  | [] => none
  | env :: rest =>
    match run_step env with
    | none => none
    | some (rc, acts) =>
      if rc = 0 then
        (run_loop rest).map (fun p => (p.1, acts :: p.2))
      else
        some (rc, [acts])

/-- Translation of module_udp_run (udp.c lines 194-234).  `rd`, `wr` and
`ctrl` are the descriptor arguments; `nbRd` and `nbSock` are the injected
results of the two pppoat_util_fd_nonblock_set calls, combined with the C
binary question-colon operator as in line 204. -/
def module_udp_run (rd wr ctrl : Int) (nbRd nbSock : Int)
    (iters : List IterEnv) : Option (Int × List IterActs) :=
  let rc : Int := if nbRd ≠ 0 then nbRd else nbSock
  if rc = 0 then run_loop iters else some (rc, [])

/-- Translation of udp_ainfo_get (udp.c lines 49-75).  `gaiRc` is the
injected return value of getaddrinfo and `res` the address list it would
fill on success.  Returns the pair of the function return value and the
value stored through the ainfo output pointer: on a nonzero getaddrinfo
return value the function stores NULL (modelled as `none`) and returns
P_ERR of minus ENOPROTOOPT. -/
def udp_ainfo_get {α : Type} (gaiRc : Int) (res : α) : Int × Option α :=
  if gaiRc ≠ 0 then (-ENOPROTOOPT, none) else (0, some res)

/-- Resource events produced by module_udp_init and udp_sock_new.  A
resolved address list is identified by the host and port it was obtained
for (`none` host is the wildcard local bind resolution). -/
inductive InitEv where
  | gai (host : Option String) (port : Nat)
  | putAinfo (host : Option String) (port : Nat)
  | sockNew (fd : Nat)
  | closeFd (fd : Nat)
  | freeCtx
deriving DecidableEq, Repr

/-- Number of occurrences of an event in a trace. -/
def countEv (e : InitEv) : List InitEv → Nat
  | [] => 0
  | x :: xs => (if x = e then 1 else 0) + countEv e xs

/-- Injected environment for module_udp_init: whether pppoat_alloc
succeeds, the getaddrinfo return values for the remote and the local
resolution, the result of the socket call (descriptor or errno), and the
result of the bind call (unit or errno). -/
structure InitEnv where
  allocOk : Bool
  gaiRemoteRc : Int
  gaiLocalRc : Int
  socketRes : Except Int Nat
  bindRes : Except Int Unit

/-- Translation of struct pppoat_udp_ctx (udp.c lines 43-47).  The uc_ainfo
addrinfo pointer is modelled by the identity of the resolution that
produced it: the remote host and port. -/
structure pppoat_udp_ctx where
  uc_type : NodeType
  uc_ainfo : String × Nat
  uc_sock : Nat
deriving DecidableEq, Repr

/-- Translation of udp_sock_new (udp.c lines 82-103): resolve a wildcard
local address for `port`, create a socket, bind it, close the socket when
the bind fails, and release the resolved address list whenever it was
obtained.  Returns the return code, the created descriptor when the socket
call succeeded, and the resource event trace. -/
def udp_sock_new (port : Nat) (env : InitEnv) :
    Int × Option Nat × List InitEv :=
  let gai := udp_ainfo_get env.gaiLocalRc ()
  if gai.1 = 0 then
    match env.socketRes with
    | Except.error e =>
        (-e, none, [InitEv.gai none port, InitEv.putAinfo none port])
    | Except.ok fd =>
        match env.bindRes with
        | Except.error e =>
            (-e, some fd,
             [InitEv.gai none port, InitEv.sockNew fd,
              InitEv.closeFd fd, InitEv.putAinfo none port])
        | Except.ok _ =>
            (0, some fd,
             [InitEv.gai none port, InitEv.sockNew fd,
              InitEv.putAinfo none port])
  else
    (gai.1, none, [InitEv.gai none port])

/-- Translation of module_udp_init (udp.c lines 105-146).  `isTrue` models
the external pppoat_conf_obj_is_true predicate and `serverOpt` the result
of pppoat_conf_get for the key server.  Returns the return code, the
produced context if any, and the resource event trace. -/
def module_udp_init (isTrue : String → Bool) (serverOpt : Option String)
    (env : InitEnv) : Int × Option pppoat_udp_ctx × List InitEv :=
  let type : NodeType :=
    match serverOpt with
    | some opt => if isTrue opt then NodeType.master else NodeType.slave
    | none => NodeType.slave
  let sport : Nat :=
    if type = NodeType.master then UDP_PORT_MASTER else UDP_PORT_SLAVE
  let dport : Nat :=
    if type = NodeType.master then UDP_PORT_SLAVE else UDP_PORT_MASTER
  let dhost : String :=
    if type = NodeType.master then UDP_HOST_SLAVE else UDP_HOST_MASTER
  if env.allocOk then
    let gaiR := udp_ainfo_get env.gaiRemoteRc ()
    if gaiR.1 = 0 then
      let r := udp_sock_new sport env
      if r.1 = 0 then
        (0, some ⟨type, (dhost, dport), r.2.1.getD 0⟩,
         InitEv.gai (some dhost) dport :: r.2.2)
      else
        (r.1, none,
         InitEv.gai (some dhost) dport ::
           (r.2.2 ++ [InitEv.putAinfo (some dhost) dport, InitEv.freeCtx]))
    else
      (gaiR.1, none, [InitEv.gai (some dhost) dport, InitEv.freeCtx])
  else
    (-ENOMEM, none, [])

/-! Theorems. -/

theorem recoverable_zero : udp_error_is_recoverable 0 = false := by decide

theorem recoverable_epipe : udp_error_is_recoverable (-EPIPE) = false := by decide

theorem udp_buf_send_sum (resps : List SysRes) :
    ∀ (len : Int) (sels : List Int) (sent : List Nat),
      0 < len → sends_bounded len resps = true →
      udp_buf_send len resps sels = some (0, sent) →
      ((sent.sum : Nat) : Int) = len := by
  induction resps with
  | nil =>
    intro len sels sent h hp hr
    simp [udp_buf_send] at hr
  | cons r resps ih =>
    intro len sels sent h hp hr
    cases r with
    | ok n =>
      simp only [sends_bounded, Bool.and_eq_true, decide_eq_true_eq] at hp
      obtain ⟨hn, hp2⟩ := hp
      simp only [udp_buf_send] at hr
      have hA : (if 0 < (n : Int) then len - (n : Int) else len)
          = len - (n : Int) := by
        by_cases h0 : 0 < (n : Int)
        · rw [if_pos h0]
        · rw [if_neg h0]
          omega
      rw [hA] at hr
      by_cases h0 : 0 < len - (n : Int)
      · rw [if_pos h0] at hr
        rcases hm : udp_buf_send (len - (n : Int)) resps sels with _ | p
        · rw [hm] at hr
          exact absurd hr (by simp)
        · obtain ⟨p1, p2⟩ := p
          rw [hm] at hr
          simp only [Option.map_some', Option.some.injEq, Prod.mk.injEq] at hr
          obtain ⟨hrc, hsent⟩ := hr
          subst hrc
          have hsum := ih (len - (n : Int)) sels p2 h0 hp2 hm
          rw [← hsent]
          simp only [List.map_cons, List.sum_cons]
          omega
      · rw [if_neg h0] at hr
        simp only [Option.some.injEq, Prod.mk.injEq] at hr
        obtain ⟨_, hsent⟩ := hr
        rw [← hsent]
        simp only [List.map_cons, List.map_nil, List.sum_cons, List.sum_nil]
        omega
    | err e =>
      simp only [sends_bounded] at hp
      simp only [udp_buf_send] at hr
      by_cases hE : e = EINTR
      · rw [if_pos hE, if_pos h] at hr
        exact ih len sels sent h hp hr
      · rw [if_neg hE] at hr
        by_cases hRec : udp_error_is_recoverable (-e) = true
        · rw [if_pos hRec] at hr
          cases sels with
          | nil => exact absurd hr (by simp)
          | cons s sels2 =>
            simp only [] at hr
            by_cases hs0 : s = 0
            · rw [if_pos hs0, if_pos h] at hr
              exact ih len sels2 sent h hp hr
            · rw [if_neg hs0] at hr
              simp only [Option.some.injEq, Prod.mk.injEq] at hr
              exact absurd hr.1 hs0
        · rw [if_neg hRec] at hr
          by_cases he0 : e = 0
          · rw [if_pos he0, if_pos h] at hr
            exact ih len sels sent h hp hr
          · rw [if_neg he0] at hr
            simp only [Option.some.injEq, Prod.mk.injEq] at hr
            exact absurd (by omega : e = 0) he0

/-- Claim C1: for every buffer length between 1 and 65507 and every
injected sequence of sendto responses obeying the POSIX bound (a send
never reports more bytes than remained), whenever udp_buf_send returns 0
the byte counts of its successful sendto calls, in order, sum exactly to
the initial length. -/
theorem claim_C1_full_buffer_send (len : Int) (resps : List SysRes)
    (sels : List Int) (sent : List Nat)
    (h1 : 1 ≤ len) (h2 : len ≤ 65507)
    (hp : sends_bounded len resps = true)
    (hr : udp_buf_send len resps sels = some (0, sent)) :
    ((sent.sum : Nat) : Int) = len :=
  udp_buf_send_sum resps len sels sent (by omega) hp hr

/-- Claim C1 witness: a send interleaving would-block, a partial send of 2
bytes, an interrupt and a final send of 3 bytes delivers all 5 bytes. -/
theorem claim_C1_witness :
    (1 : Int) ≤ 5 ∧ (5 : Int) ≤ 65507 ∧
    sends_bounded 5
      [SysRes.err 11, SysRes.ok 2, SysRes.err 4, SysRes.ok 3] = true ∧
    udp_buf_send 5 [SysRes.err 11, SysRes.ok 2, SysRes.err 4, SysRes.ok 3]
      [0] = some (0, [2, 3]) ∧
    ((([2, 3] : List Nat).sum : Nat) : Int) = 5 :=
  ⟨by decide, by decide, by decide, by decide,
   claim_C1_full_buffer_send 5
     [SysRes.err 11, SysRes.ok 2, SysRes.err 4, SysRes.ok 3] [0] [2, 3]
     (by decide) (by decide) (by decide) (by decide)⟩

theorem udp_buf_send_recoverable_mem (resps : List SysRes) :
    ∀ (len : Int) (sels : List Int) (rc : Int) (sent : List Nat),
      udp_buf_send len resps sels = some (rc, sent) →
      udp_error_is_recoverable rc = true → rc ∈ sels := by
  induction resps with
  | nil =>
    intro len sels rc sent h _
    simp [udp_buf_send] at h
  | cons r resps ih =>
    intro len sels rc sent h hrec
    cases r with
    | ok n =>
      simp only [udp_buf_send] at h
      by_cases h0 : 0 < (if 0 < (n : Int) then len - (n : Int) else len)
      · rw [if_pos h0] at h
        rcases hm : udp_buf_send (if 0 < (n : Int) then len - (n : Int)
            else len) resps sels with _ | p
        · rw [hm] at h
          exact absurd h (by simp)
        · obtain ⟨p1, p2⟩ := p
          rw [hm] at h
          simp only [Option.map_some', Option.some.injEq, Prod.mk.injEq] at h
          obtain ⟨h1, _⟩ := h
          subst h1
          exact ih _ sels p1 p2 hm hrec
      · rw [if_neg h0] at h
        simp only [Option.some.injEq, Prod.mk.injEq] at h
        obtain ⟨h1, _⟩ := h
        have : rc = 0 := by omega
        subst this
        simp [recoverable_zero] at hrec
    | err e =>
      simp only [udp_buf_send] at h
      by_cases hE : e = EINTR
      · rw [if_pos hE] at h
        by_cases hl : 0 < len
        · rw [if_pos hl] at h
          exact ih len sels rc sent h hrec
        · rw [if_neg hl] at h
          simp only [Option.some.injEq, Prod.mk.injEq] at h
          obtain ⟨h1, _⟩ := h
          have : rc = 0 := by omega
          subst this
          simp [recoverable_zero] at hrec
      · rw [if_neg hE] at h
        by_cases hRec : udp_error_is_recoverable (-e) = true
        · rw [if_pos hRec] at h
          cases sels with
          | nil => exact absurd h (by simp)
          | cons s sels2 =>
            simp only [] at h
            by_cases hs0 : s = 0
            · rw [if_pos hs0] at h
              by_cases hl : 0 < len
              · rw [if_pos hl] at h
                exact List.mem_cons_of_mem s (ih len sels2 rc sent h hrec)
              · rw [if_neg hl] at h
                simp only [Option.some.injEq, Prod.mk.injEq] at h
                obtain ⟨h1, _⟩ := h
                have : rc = 0 := by omega
                subst this
                simp [recoverable_zero] at hrec
            · rw [if_neg hs0] at h
              simp only [Option.some.injEq, Prod.mk.injEq] at h
              obtain ⟨h1, _⟩ := h
              have h2 : rc = s := by omega
              rw [h2]
              exact List.mem_cons_self s sels2
        · rw [if_neg hRec] at h
          by_cases he0 : e = 0
          · rw [if_pos he0] at h
            by_cases hl : 0 < len
            · rw [if_pos hl] at h
              exact ih len sels rc sent h hrec
            · rw [if_neg hl] at h
              simp only [Option.some.injEq, Prod.mk.injEq] at h
              obtain ⟨h1, _⟩ := h
              have : rc = 0 := by omega
              subst this
              simp [recoverable_zero] at hrec
          · rw [if_neg he0] at h
            simp only [Option.some.injEq, Prod.mk.injEq] at h
            obtain ⟨h1, _⟩ := h
            have : rc = -e := by omega
            subst this
            exact absurd hrec hRec

theorem run_rd_branch_recoverable (rc0 : Int) (env : IterEnv) (rc1 : Int)
    (sent : List Nat)
    (h : run_rd_branch rc0 env = some (rc1, sent))
    (hrec : udp_error_is_recoverable rc1 = true) :
    rc1 = rc0 ∨ rc1 ∈ env.sendSels := by
  unfold run_rd_branch at h
  by_cases hrd : env.rdReady = true
  · rw [if_pos hrd] at h
    cases hR : env.readRes with
    | ok n =>
      rw [hR] at h
      cases n with
      | zero =>
        simp only [Option.some.injEq, Prod.mk.injEq] at h
        obtain ⟨h1, _⟩ := h
        have : rc1 = -EPIPE := by omega
        subst this
        simp [recoverable_epipe] at hrec
      | succ m =>
        exact Or.inr (udp_buf_send_recoverable_mem env.sendResps _
          env.sendSels rc1 sent h hrec)
    | err e =>
      rw [hR] at h
      simp only [] at h
      by_cases her : udp_error_is_recoverable (-e) = true
      · rw [if_pos her] at h
        simp only [Option.some.injEq, Prod.mk.injEq] at h
        exact Or.inl (by omega)
      · rw [if_neg her] at h
        simp only [Option.some.injEq, Prod.mk.injEq] at h
        obtain ⟨h1, _⟩ := h
        have : rc1 = -e := by omega
        subst this
        exact absurd hrec her
  · rw [if_neg hrd] at h
    simp only [Option.some.injEq, Prod.mk.injEq] at h
    exact Or.inl (by omega)

theorem run_step_recoverable (env : IterEnv) (rc : Int) (acts : IterActs)
    (h : run_step env = some (rc, acts))
    (hrec : udp_error_is_recoverable rc = true) :
    rc = env.selectRc ∨ rc ∈ env.sendSels ∨ rc = env.writeRc := by
  unfold run_step at h
  rcases hb : run_rd_branch (select_norm env.selectRc) env with _ | p
  · rw [hb] at h
    exact absurd h (by simp)
  · obtain ⟨rc1, sent⟩ := p
    rw [hb] at h
    simp only at h
    by_cases hg : rc1 = 0 ∧ env.sockReady = true
    · rw [if_pos hg] at h
      cases hR : env.recvRes with
      | ok n =>
        rw [hR] at h
        cases n with
        | zero =>
          simp only [Option.some.injEq, Prod.mk.injEq] at h
          obtain ⟨h1, _⟩ := h
          have : rc = 0 := by omega
          subst this
          simp [recoverable_zero] at hrec
        | succ m =>
          simp only [Option.some.injEq, Prod.mk.injEq] at h
          obtain ⟨h1, _⟩ := h
          exact Or.inr (Or.inr (by omega))
      | err e =>
        rw [hR] at h
        simp only [] at h
        by_cases her : udp_error_is_recoverable (-e) = true
        · rw [if_pos her] at h
          simp only [Option.some.injEq, Prod.mk.injEq] at h
          obtain ⟨h1, _⟩ := h
          have : rc = 0 := by omega
          subst this
          simp [recoverable_zero] at hrec
        · rw [if_neg her] at h
          simp only [Option.some.injEq, Prod.mk.injEq] at h
          obtain ⟨h1, _⟩ := h
          have : rc = -e := by omega
          subst this
          exact absurd hrec her
    · rw [if_neg hg] at h
      simp only [Option.some.injEq, Prod.mk.injEq] at h
      obtain ⟨h1, _⟩ := h
      have hrc : rc = rc1 := by omega
      subst hrc
      rcases run_rd_branch_recoverable (select_norm env.selectRc) env rc
          sent hb hrec with hA | hA
      · left
        unfold select_norm at hA
        by_cases hpos : 0 < env.selectRc
        · rw [if_pos hpos] at hA
          subst hA
          simp [recoverable_zero] at hrec
        · rw [if_neg hpos] at hA
          exact hA
      · exact Or.inr (Or.inl hA)

theorem run_loop_recoverable (iters : List IterEnv) :
    ∀ rc tr, run_loop iters = some (rc, tr) →
      udp_error_is_recoverable rc = true →
      ∃ env ∈ iters,
        rc = env.selectRc ∨ rc ∈ env.sendSels ∨ rc = env.writeRc := by
  induction iters with
  | nil =>
    intro rc tr h _
    simp [run_loop] at h
  | cons env rest ih =>
    intro rc tr h hrec
    simp only [run_loop] at h
    rcases hs : run_step env with _ | p
    · rw [hs] at h
      exact absurd h (by simp)
    · obtain ⟨rcS, acts⟩ := p
      rw [hs] at h
      simp only at h
      by_cases hz : rcS = 0
      · rw [if_pos hz] at h
        rcases hr : run_loop rest with _ | q
        · rw [hr] at h
          exact absurd h (by simp)
        · rw [hr] at h
          simp only [Option.map_some', Option.some.injEq, Prod.mk.injEq] at h
          obtain ⟨h1, _⟩ := h
          subst h1
          obtain ⟨e2, he2, hor⟩ := ih q.1 q.2 (by rw [hr]) hrec
          exact ⟨e2, List.mem_cons_of_mem env he2, hor⟩
      · rw [if_neg hz] at h
        simp only [Option.some.injEq, Prod.mk.injEq] at h
        obtain ⟨h1, _⟩ := h
        subst h1
        exact ⟨env, List.mem_cons_self env rest,
          run_step_recoverable env rcS acts hs hrec⟩

/-- Claim C2: transient failures of the socket operations are absorbed.
First, a would-block sendto failure makes udp_buf_send invoke the wait
primitive and, when the socket becomes writable, retry the same send;
second, an interrupted sendto is retried immediately without waiting;
third, a transient read failure leaves rc unchanged in the rd branch;
fourth, a transient recv failure ends the iteration with rc 0 so the loop
continues; fifth, a recoverable code returned by module_udp_run can only
originate from an external primitive (nonblock setup, select, or write),
never from a transient send, read or recv errno. -/
theorem claim_C2_transient_absorption :
    (∀ (len : Int) (resps : List SysRes) (sels : List Int) (e : Int),
      0 < len → (e = EAGAIN ∨ e = EWOULDBLOCK) →
      udp_buf_send len (SysRes.err e :: resps) (0 :: sels) =
        udp_buf_send len resps sels) ∧
    (∀ (len : Int) (resps : List SysRes) (sels : List Int),
      0 < len →
      udp_buf_send len (SysRes.err EINTR :: resps) sels =
        udp_buf_send len resps sels) ∧
    (∀ (rc0 : Int) (env : IterEnv) (e : Int),
      env.rdReady = true → env.readRes = SysRes.err e →
      udp_error_is_recoverable (-e) = true →
      run_rd_branch rc0 env = some (rc0, [])) ∧
    (∀ (env : IterEnv) (e : Int) (sent : List Nat),
      env.sockReady = true → env.recvRes = SysRes.err e →
      udp_error_is_recoverable (-e) = true →
      run_rd_branch (select_norm env.selectRc) env = some (0, sent) →
      run_step env = some (0, ⟨env.rdReady, sent, true, none⟩)) ∧
    (∀ (rd wr ctrl nbRd nbSock : Int) (iters : List IterEnv) (rc : Int)
        (tr : List IterActs),
      module_udp_run rd wr ctrl nbRd nbSock iters = some (rc, tr) →
      udp_error_is_recoverable rc = true →
      rc = nbRd ∨ rc = nbSock ∨
        ∃ env ∈ iters,
          rc = env.selectRc ∨ rc ∈ env.sendSels ∨ rc = env.writeRc) := by
  refine ⟨?_, ?_, ?_, ?_, ?_⟩
  · intro len resps sels e hl he
    rcases he with he | he <;> subst he <;>
      simp [udp_buf_send, EINTR, EAGAIN, EWOULDBLOCK,
            udp_error_is_recoverable, hl]
  · intro len resps sels hl
    simp [udp_buf_send, hl]
  · intro rc0 env e h1 h2 h3
    simp [run_rd_branch, h1, h2, h3]
  · intro env e sent h1 h2 h3 h4
    simp [run_step, h4, h1, h2, h3]
  · intro rd wr ctrl nbRd nbSock iters rc tr h hrec
    simp only [module_udp_run] at h
    by_cases h1 : (if nbRd ≠ 0 then nbRd else nbSock) = 0
    · rw [if_pos h1] at h
      exact Or.inr (Or.inr (run_loop_recoverable iters rc tr h hrec))
    · rw [if_neg h1] at h
      simp only [Option.some.injEq, Prod.mk.injEq] at h
      obtain ⟨h2, _⟩ := h
      by_cases hn : nbRd ≠ 0
      · rw [if_pos hn] at h2
        exact Or.inl (by omega)
      · rw [if_neg hn] at h2
        exact Or.inr (Or.inl (by omega))

/-- Claim C2 witness: a would-block send followed by a successful wait is
retried transparently. -/
theorem claim_C2_witness :
    (0 : Int) < 1 ∧ ((11 : Int) = EAGAIN ∨ (11 : Int) = EWOULDBLOCK) ∧
    udp_buf_send 1 [SysRes.err 11, SysRes.ok 1] [0] =
      udp_buf_send 1 [SysRes.ok 1] [] :=
  ⟨by decide, Or.inl (by decide),
   claim_C2_transient_absorption.1 1 [SysRes.ok 1] [] 11 (by decide)
     (Or.inl (by decide))⟩

theorem run_loop_ne_zero (iters : List IterEnv) :
    ∀ rc tr, run_loop iters = some (rc, tr) → rc ≠ 0 := by
  induction iters with
  | nil =>
    intro rc tr h
    simp [run_loop] at h
  | cons env rest ih =>
    intro rc tr h
    simp only [run_loop] at h
    cases hs : run_step env with
    | none => rw [hs] at h; exact absurd h (by simp)
    | some p =>
      obtain ⟨rcS, acts⟩ := p
      rw [hs] at h
      simp only at h
      by_cases hz : rcS = 0
      · rw [if_pos hz] at h
        cases hr : run_loop rest with
        | none => rw [hr] at h; exact absurd h (by simp)
        | some q =>
          rw [hr] at h
          simp only [Option.map_some', Option.some.injEq, Prod.mk.injEq] at h
          exact h.1 ▸ ih q.1 q.2 (by rw [hr])
      · rw [if_neg hz] at h
        simp only [Option.some.injEq, Prod.mk.injEq] at h
        exact h.1 ▸ hz

/-- Claim C7: whenever run returns, the returned value is nonzero: the main
loop is re-entered as long as no error has been recorded, so a success
result is impossible once module_udp_run terminates. -/
theorem claim_C7_no_success_return (rd wr ctrl nbRd nbSock : Int)
    (iters : List IterEnv) (rc : Int) (tr : List IterActs)
    (h : module_udp_run rd wr ctrl nbRd nbSock iters = some (rc, tr)) :
    rc ≠ 0 := by
  simp only [module_udp_run] at h
  by_cases h1 : (if nbRd ≠ 0 then nbRd else nbSock) = 0
  · rw [if_pos h1] at h
    exact run_loop_ne_zero iters rc tr h
  · rw [if_neg h1] at h
    simp only [Option.some.injEq, Prod.mk.injEq] at h
    exact h.1 ▸ h1

/-- Claim C7 witness: a run that stops immediately because the nonblock
setup call failed returns that nonzero error. -/
theorem claim_C7_witness :
    module_udp_run 0 1 2 5 0 ([] : List IterEnv) = some (5, []) ∧ (5 : Int) ≠ 0 :=
  ⟨by decide, claim_C7_no_success_return 0 1 2 5 0 [] 5 [] (by decide)⟩

/-- Claim C8: the ctrl descriptor argument has no influence on the
behaviour of module_udp_run: two runs differing only in ctrl perform the
same actions and return the same result. -/
theorem claim_C8_ctrl_irrelevant (rd wr ctrl1 ctrl2 nbRd nbSock : Int)
    (iters : List IterEnv) :
    module_udp_run rd wr ctrl1 nbRd nbSock iters =
      module_udp_run rd wr ctrl2 nbRd nbSock iters := rfl

/-- Claim C3: a zero-length read from the link read descriptor makes
module_udp_run terminate with minus EPIPE, with no recv performed in that
iteration and without re-entering the loop, whatever iterations would have
followed. -/
theorem claim_C3_zero_read_epipe (rd wr ctrl : Int) (env : IterEnv)
    (rest : List IterEnv)
    (h1 : env.rdReady = true) (h2 : env.readRes = SysRes.ok 0) :
    module_udp_run rd wr ctrl 0 0 (env :: rest) =
      some (-EPIPE, [⟨true, [], false, none⟩]) := by
  simp [module_udp_run, run_loop, run_step, run_rd_branch, h1, h2, EPIPE]

/-- Claim C3 witness. -/
theorem claim_C3_witness :
    module_udp_run 0 1 2 0 0
        [⟨1, true, false, SysRes.ok 0, [], [], SysRes.ok 0, 0⟩] =
      some (-EPIPE, [⟨true, [], false, none⟩]) :=
  claim_C3_zero_read_epipe 0 1 2
    ⟨1, true, false, SysRes.ok 0, [], [], SysRes.ok 0, 0⟩ [] rfl rfl

/-- Claim C4 counterexample: an execution in which pppoat_util_select
returns the error minus 5 while the read descriptor is still flagged ready
and has data; the read branch overwrites the error with the result of
udp_buf_send, the loop is re-entered, and the run later returns minus
EPIPE instead of minus 5.  This refutes the claim that a wait-primitive
error is always returned and never overwritten. -/
theorem claim_C4_counterexample :
    module_udp_run 0 1 2 0 0
        [⟨-5, true, false, SysRes.ok 3, [SysRes.ok 3], [], SysRes.ok 0, 0⟩,
         ⟨1, true, false, SysRes.ok 0, [], [], SysRes.ok 0, 0⟩] =
      some (-EPIPE, [⟨true, [3], false, none⟩, ⟨true, [], false, none⟩]) ∧
    (-EPIPE : Int) ≠ -5 := by
  constructor
  · decide
  · decide

/-- Claim C4 amended: if pppoat_util_select returns a negative error in an
iteration and the read descriptor is not flagged ready afterwards, then
module_udp_run terminates at once returning exactly that error, the
socket-receive branch is not performed, and the loop is not re-entered. -/
theorem claim_C4_select_error_propagates (rd wr ctrl : Int) (env : IterEnv)
    (rest : List IterEnv)
    (h1 : env.selectRc < 0) (h2 : env.rdReady = false) :
    module_udp_run rd wr ctrl 0 0 (env :: rest) =
      some (env.selectRc, [⟨false, [], false, none⟩]) := by
  have hnorm : select_norm env.selectRc = env.selectRc := by
    unfold select_norm
    rw [if_neg (by omega)]
  have hne : ¬ env.selectRc = 0 := by omega
  simp [module_udp_run, run_loop, run_step, run_rd_branch, h2, hnorm, hne]

/-- Claim C4 witness. -/
theorem claim_C4_witness :
    module_udp_run 0 1 2 0 0
        [⟨-7, false, true, SysRes.ok 9, [], [], SysRes.ok 4, 0⟩] =
      some (-7, [⟨false, [], false, none⟩]) :=
  claim_C4_select_error_propagates 0 1 2
    ⟨-7, false, true, SysRes.ok 9, [], [], SysRes.ok 4, 0⟩ [] (by decide) rfl

/-- Claim C9: an iteration whose socket branch is reached with rc equal to
0 and whose recv returns zero bytes neither terminates the run nor writes
anything to the link write descriptor: the loop simply continues with the
remaining iterations. -/
theorem claim_C9_zero_recv_ignored (rd wr ctrl : Int) (env : IterEnv)
    (rest : List IterEnv) (sent : List Nat)
    (h1 : run_rd_branch (select_norm env.selectRc) env = some (0, sent))
    (h2 : env.sockReady = true) (h3 : env.recvRes = SysRes.ok 0) :
    module_udp_run rd wr ctrl 0 0 (env :: rest) =
      (module_udp_run rd wr ctrl 0 0 rest).map
        (fun p => (p.1, (⟨env.rdReady, sent, true, none⟩ : IterActs) :: p.2)) := by
  simp [module_udp_run, run_loop, run_step, h1, h2, h3]

/-- Claim C9 witness: with no further iterations injected the run keeps
going (result none) and the zero-length datagram produced no write. -/
theorem claim_C9_witness :
    module_udp_run 0 1 2 0 0
        [⟨1, false, true, SysRes.ok 0, [], [], SysRes.ok 0, 0⟩] =
      (module_udp_run 0 1 2 0 0 ([] : List IterEnv)).map
        (fun p => ((⟨false, [], true, none⟩ : IterActs) :: p.2) |> fun l => (p.1, l)) := by
  have := claim_C9_zero_recv_ignored 0 1 2
    ⟨1, false, true, SysRes.ok 0, [], [], SysRes.ok 0, 0⟩ [] []
    (by decide) rfl rfl
  simpa using this

/-- Claim C10: whenever the underlying getaddrinfo call fails, udp_ainfo_get
stores NULL through the output pointer and returns the fixed code minus
ENOPROTOOPT; moreover the output is NULL exactly when the returned code is
nonzero, so the caller never receives a dangling address list. -/
theorem claim_C10_ainfo_failure {α : Type} (gaiRc : Int) (res : α) :
    (gaiRc ≠ 0 → udp_ainfo_get gaiRc res = (-ENOPROTOOPT, none)) ∧
    ((udp_ainfo_get gaiRc res).2 = none ↔ (udp_ainfo_get gaiRc res).1 ≠ 0) := by
  constructor
  · intro h
    simp [udp_ainfo_get, h]
  · by_cases h : gaiRc = 0 <;> simp [udp_ainfo_get, h, ENOPROTOOPT]

/-- Claim C5: module_udp_init selects the master role exactly when the
server option is present and truthy, and the slave role otherwise; the
master binds local port 0xc001 and resolves the fixed slave host
192.168.4.10 as destination on port 0xc001, while the slave binds local
port 0xc001 and resolves the fixed master host 192.168.4.1 as destination
on port 0xc001. -/
theorem claim_C5_role_endpoints (isTrue : String → Bool)
    (serverOpt : Option String) (env : InitEnv) (fd : Nat)
    (h1 : env.allocOk = true) (h2 : env.gaiRemoteRc = 0)
    (h3 : env.gaiLocalRc = 0) (h4 : env.socketRes = Except.ok fd)
    (h5 : env.bindRes = Except.ok ()) :
    ∃ ctx : pppoat_udp_ctx,
      (module_udp_init isTrue serverOpt env).2.1 = some ctx ∧
      (module_udp_init isTrue serverOpt env).1 = 0 ∧
      (ctx.uc_type = NodeType.master ↔
        ∃ s, serverOpt = some s ∧ isTrue s = true) ∧
      ctx.uc_ainfo.2 = 0xc001 ∧
      (ctx.uc_ainfo.1 = if ctx.uc_type = NodeType.master
        then UDP_HOST_SLAVE else UDP_HOST_MASTER) ∧
      ctx.uc_sock = fd ∧
      countEv (InitEv.gai none 0xc001)
        (module_udp_init isTrue serverOpt env).2.2 = 1 ∧
      countEv (InitEv.gai (some ctx.uc_ainfo.1) 0xc001)
        (module_udp_init isTrue serverOpt env).2.2 = 1 := by
  cases serverOpt with
  | none =>
    refine ⟨⟨NodeType.slave, (UDP_HOST_MASTER, UDP_PORT_MASTER), fd⟩, ?_⟩
    simp [module_udp_init, udp_sock_new, udp_ainfo_get, h1, h2, h3, h4, h5,
          countEv, UDP_HOST_MASTER, UDP_HOST_SLAVE, UDP_PORT_MASTER,
          UDP_PORT_SLAVE]
  | some s =>
    by_cases hT : isTrue s
    · refine ⟨⟨NodeType.master, (UDP_HOST_SLAVE, UDP_PORT_SLAVE), fd⟩, ?_⟩
      refine ⟨?_, ?_, ?_, ?_, ?_, ?_, ?_, ?_⟩ <;>
        simp [module_udp_init, udp_sock_new, udp_ainfo_get, h1, h2, h3, h4,
              h5, hT, countEv, UDP_HOST_MASTER, UDP_HOST_SLAVE,
              UDP_PORT_MASTER, UDP_PORT_SLAVE]
    · refine ⟨⟨NodeType.slave, (UDP_HOST_MASTER, UDP_PORT_MASTER), fd⟩, ?_⟩
      refine ⟨?_, ?_, ?_, ?_, ?_, ?_, ?_, ?_⟩ <;>
        simp [module_udp_init, udp_sock_new, udp_ainfo_get, h1, h2, h3, h4,
              h5, hT, countEv, UDP_HOST_MASTER, UDP_HOST_SLAVE,
              UDP_PORT_MASTER, UDP_PORT_SLAVE]

/-- Claim C5 witness. -/
theorem claim_C5_witness :
    ∃ ctx : pppoat_udp_ctx,
      (module_udp_init (fun _ => true) (some "1")
        ⟨true, 0, 0, Except.ok 7, Except.ok ()⟩).2.1 = some ctx ∧
      (module_udp_init (fun _ => true) (some "1")
        ⟨true, 0, 0, Except.ok 7, Except.ok ()⟩).1 = 0 ∧
      (ctx.uc_type = NodeType.master ↔
        ∃ s, (some "1" : Option String) = some s ∧ (fun _ => true) s = true) ∧
      ctx.uc_ainfo.2 = 0xc001 ∧
      (ctx.uc_ainfo.1 = if ctx.uc_type = NodeType.master
        then UDP_HOST_SLAVE else UDP_HOST_MASTER) ∧
      ctx.uc_sock = 7 ∧
      countEv (InitEv.gai none 0xc001)
        (module_udp_init (fun _ => true) (some "1")
          ⟨true, 0, 0, Except.ok 7, Except.ok ()⟩).2.2 = 1 ∧
      countEv (InitEv.gai (some ctx.uc_ainfo.1) 0xc001)
        (module_udp_init (fun _ => true) (some "1")
          ⟨true, 0, 0, Except.ok 7, Except.ok ()⟩).2.2 = 1 :=
  claim_C5_role_endpoints (fun _ => true) (some "1")
    ⟨true, 0, 0, Except.ok 7, Except.ok ()⟩ 7 rfl rfl rfl rfl rfl

/-- Claim C6: when the remote resolution succeeded and then the socket
creation or the bind fails during module_udp_init, every acquired resource
is released exactly once before the error is reported: the remote resolved
address list is released once, the local resolved address list is released
once, any created socket descriptor is closed exactly once, the context
allocation is freed exactly once, and no context is handed out. -/
theorem claim_C6_init_cleanup (isTrue : String → Bool)
    (serverOpt : Option String) (env : InitEnv)
    (h1 : env.allocOk = true) (h2 : env.gaiRemoteRc = 0)
    (h3 : env.gaiLocalRc = 0)
    (hf : (∃ e : Int, 0 < e ∧ env.socketRes = Except.error e) ∨
          (∃ (fd : Nat) (e : Int), 0 < e ∧ env.socketRes = Except.ok fd ∧
            env.bindRes = Except.error e)) :
    (module_udp_init isTrue serverOpt env).1 ≠ 0 ∧
    (module_udp_init isTrue serverOpt env).2.1 = none ∧
    (∃ h : String,
      countEv (InitEv.gai (some h) 0xc001)
        (module_udp_init isTrue serverOpt env).2.2 = 1 ∧
      countEv (InitEv.putAinfo (some h) 0xc001)
        (module_udp_init isTrue serverOpt env).2.2 = 1) ∧
    countEv (InitEv.gai none 0xc001)
      (module_udp_init isTrue serverOpt env).2.2 = 1 ∧
    countEv (InitEv.putAinfo none 0xc001)
      (module_udp_init isTrue serverOpt env).2.2 = 1 ∧
    (∀ fd : Nat,
      countEv (InitEv.sockNew fd)
        (module_udp_init isTrue serverOpt env).2.2 =
      countEv (InitEv.closeFd fd)
        (module_udp_init isTrue serverOpt env).2.2) ∧
    countEv InitEv.freeCtx (module_udp_init isTrue serverOpt env).2.2 = 1 := by
  have hM : ∀ s, serverOpt = some s → isTrue s = true →
      (module_udp_init isTrue serverOpt env).1 ≠ 0 ∧
      (module_udp_init isTrue serverOpt env).2.1 = none ∧
      (∃ h : String,
        countEv (InitEv.gai (some h) 0xc001)
          (module_udp_init isTrue serverOpt env).2.2 = 1 ∧
        countEv (InitEv.putAinfo (some h) 0xc001)
          (module_udp_init isTrue serverOpt env).2.2 = 1) ∧
      countEv (InitEv.gai none 0xc001)
        (module_udp_init isTrue serverOpt env).2.2 = 1 ∧
      countEv (InitEv.putAinfo none 0xc001)
        (module_udp_init isTrue serverOpt env).2.2 = 1 ∧
      (∀ fd : Nat,
        countEv (InitEv.sockNew fd)
          (module_udp_init isTrue serverOpt env).2.2 =
        countEv (InitEv.closeFd fd)
          (module_udp_init isTrue serverOpt env).2.2) ∧
      countEv InitEv.freeCtx (module_udp_init isTrue serverOpt env).2.2 = 1 := by
    intro s hso hT
    subst hso
    rcases hf with ⟨e, he, hs⟩ | ⟨fd0, e, he, hs, hb⟩
    · have hne : ¬ (-e = (0 : Int)) := by omega
      refine ⟨?_, ?_, ⟨UDP_HOST_SLAVE, ?_, ?_⟩, ?_, ?_, ?_, ?_⟩ <;>
        simp [module_udp_init, udp_sock_new, udp_ainfo_get, h1, h2, h3, hs,
              hT, hne, countEv, UDP_HOST_MASTER, UDP_HOST_SLAVE,
              UDP_PORT_MASTER, UDP_PORT_SLAVE]
    · have hne : ¬ (-e = (0 : Int)) := by omega
      refine ⟨?_, ?_, ⟨UDP_HOST_SLAVE, ?_, ?_⟩, ?_, ?_, ?_, ?_⟩ <;>
        simp [module_udp_init, udp_sock_new, udp_ainfo_get, h1, h2, h3, hs,
              hb, hT, hne, countEv, UDP_HOST_MASTER, UDP_HOST_SLAVE,
              UDP_PORT_MASTER, UDP_PORT_SLAVE]
  have hS : (serverOpt = none ∨ ∃ s, serverOpt = some s ∧ isTrue s = false) →
      (module_udp_init isTrue serverOpt env).1 ≠ 0 ∧
      (module_udp_init isTrue serverOpt env).2.1 = none ∧
      (∃ h : String,
        countEv (InitEv.gai (some h) 0xc001)
          (module_udp_init isTrue serverOpt env).2.2 = 1 ∧
        countEv (InitEv.putAinfo (some h) 0xc001)
          (module_udp_init isTrue serverOpt env).2.2 = 1) ∧
      countEv (InitEv.gai none 0xc001)
        (module_udp_init isTrue serverOpt env).2.2 = 1 ∧
      countEv (InitEv.putAinfo none 0xc001)
        (module_udp_init isTrue serverOpt env).2.2 = 1 ∧
      (∀ fd : Nat,
        countEv (InitEv.sockNew fd)
          (module_udp_init isTrue serverOpt env).2.2 =
        countEv (InitEv.closeFd fd)
          (module_udp_init isTrue serverOpt env).2.2) ∧
      countEv InitEv.freeCtx (module_udp_init isTrue serverOpt env).2.2 = 1 := by
    intro hcase
    rcases hcase with hso | ⟨s, hso, hT⟩
    · subst hso
      rcases hf with ⟨e, he, hs⟩ | ⟨fd0, e, he, hs, hb⟩
      · have hne : ¬ (-e = (0 : Int)) := by omega
        refine ⟨?_, ?_, ⟨UDP_HOST_MASTER, ?_, ?_⟩, ?_, ?_, ?_, ?_⟩ <;>
          simp [module_udp_init, udp_sock_new, udp_ainfo_get, h1, h2, h3, hs,
                hne, countEv, UDP_HOST_MASTER, UDP_HOST_SLAVE,
                UDP_PORT_MASTER, UDP_PORT_SLAVE]
      · have hne : ¬ (-e = (0 : Int)) := by omega
        refine ⟨?_, ?_, ⟨UDP_HOST_MASTER, ?_, ?_⟩, ?_, ?_, ?_, ?_⟩ <;>
          simp [module_udp_init, udp_sock_new, udp_ainfo_get, h1, h2, h3, hs,
                hb, hne, countEv, UDP_HOST_MASTER, UDP_HOST_SLAVE,
                UDP_PORT_MASTER, UDP_PORT_SLAVE]
    · subst hso
      rcases hf with ⟨e, he, hs⟩ | ⟨fd0, e, he, hs, hb⟩
      · have hne : ¬ (-e = (0 : Int)) := by omega
        refine ⟨?_, ?_, ⟨UDP_HOST_MASTER, ?_, ?_⟩, ?_, ?_, ?_, ?_⟩ <;>
          simp [module_udp_init, udp_sock_new, udp_ainfo_get, h1, h2, h3, hs,
                hT, hne, countEv, UDP_HOST_MASTER, UDP_HOST_SLAVE,
                UDP_PORT_MASTER, UDP_PORT_SLAVE]
      · have hne : ¬ (-e = (0 : Int)) := by omega
        refine ⟨?_, ?_, ⟨UDP_HOST_MASTER, ?_, ?_⟩, ?_, ?_, ?_, ?_⟩ <;>
          simp [module_udp_init, udp_sock_new, udp_ainfo_get, h1, h2, h3, hs,
                hb, hT, hne, countEv, UDP_HOST_MASTER, UDP_HOST_SLAVE,
                UDP_PORT_MASTER, UDP_PORT_SLAVE]
  cases serverOpt with
  | none => exact hS (Or.inl rfl)
  | some s =>
    by_cases hT : isTrue s
    · exact hM s rfl hT
    · exact hS (Or.inr ⟨s, rfl, by simp [hT]⟩)

/-- Claim C6 witness. -/
theorem claim_C6_witness :
    (module_udp_init (fun _ => false) none
      ⟨true, 0, 0, Except.ok 7, Except.error 98⟩).1 ≠ 0 ∧
    (module_udp_init (fun _ => false) none
      ⟨true, 0, 0, Except.ok 7, Except.error 98⟩).2.1 = none ∧
    (∃ h : String,
      countEv (InitEv.gai (some h) 0xc001)
        (module_udp_init (fun _ => false) none
          ⟨true, 0, 0, Except.ok 7, Except.error 98⟩).2.2 = 1 ∧
      countEv (InitEv.putAinfo (some h) 0xc001)
        (module_udp_init (fun _ => false) none
          ⟨true, 0, 0, Except.ok 7, Except.error 98⟩).2.2 = 1) ∧
    countEv (InitEv.gai none 0xc001)
      (module_udp_init (fun _ => false) none
        ⟨true, 0, 0, Except.ok 7, Except.error 98⟩).2.2 = 1 ∧
    countEv (InitEv.putAinfo none 0xc001)
      (module_udp_init (fun _ => false) none
        ⟨true, 0, 0, Except.ok 7, Except.error 98⟩).2.2 = 1 ∧
    (∀ fd : Nat,
      countEv (InitEv.sockNew fd)
        (module_udp_init (fun _ => false) none
          ⟨true, 0, 0, Except.ok 7, Except.error 98⟩).2.2 =
      countEv (InitEv.closeFd fd)
        (module_udp_init (fun _ => false) none
          ⟨true, 0, 0, Except.ok 7, Except.error 98⟩).2.2) ∧
    countEv InitEv.freeCtx
      (module_udp_init (fun _ => false) none
        ⟨true, 0, 0, Except.ok 7, Except.error 98⟩).2.2 = 1 :=
  claim_C6_init_cleanup (fun _ => false) none
    ⟨true, 0, 0, Except.ok 7, Except.error 98⟩ rfl rfl rfl
    (Or.inr ⟨7, 98, by decide, rfl, rfl⟩)

/-- Claim C10 witness. -/
theorem claim_C10_witness :
    udp_ainfo_get (3 : Int) () = (-ENOPROTOOPT, none) ∧
    ((udp_ainfo_get (3 : Int) ()).2 = none ↔ (udp_ainfo_get (3 : Int) ()).1 ≠ 0) :=
  ⟨(claim_C10_ainfo_failure 3 ()).1 (by decide), (claim_C10_ainfo_failure 3 ()).2⟩

end Pppoat
